import Mathlib

/-!
Verification of the upload-validate-transcribe-cleanup pipeline of
`src/app.py` (a Streamlit audio-transcription app), as a shallow embedding.

Modelling conventions:
* Raw byte buffers are `List Nat`.
* `soundfile.read` (the decoder) is an explicit parameter
  `decode : List Nat → Except String AudioData`; a Python exception with
  message `e` is `Except.error e`.  libsndfile reports a positive sample
  rate for every successfully decoded stream, so `AudioData` carries that
  positivity.  Float duration arithmetic is modelled exactly over `ℚ`.
* The Whisper model call `model.transcribe(path, fp16, language)` is an
  explicit parameter receiving the bytes stored at the temporary path, the
  `fp16` flag and the language hint; it returns
  `Except String (Option String)`: `error e` models an exception raised
  during inference, `ok none` a result with no `"text"` field, and
  `ok (some t)` a result whose `"text"` is `t`.
* The filesystem is the explicit state `FS` (existing directories and
  files with contents); `tempfile.mkdtemp` is modelled by a caller-chosen
  fresh directory name, `os.unlink` / `os.rmdir` failures by two Booleans
  (`true` = the OS call succeeds).
* Python exceptions escaping `transcribe_audio` become `Except PipeError`:
  the `raise ValueError(message)` at the validation gate (line 57) is
  `PipeError.validationError`, and the re-raise
  `Exception(f"Transcription failed: {str(e)}")` (line 82) is
  `PipeError.transcriptionError`, following the spec's error taxonomy.
-/

/-- The result of a successful `sf.read`: decoded samples and the sample
rate.  libsndfile only ever reports a positive sample rate for a stream it
managed to decode, so the embedding records that fact. -/
structure AudioData where
  data : List Int
  samplerate : Nat
  samplerate_pos : 0 < samplerate

/-- Shallow embedding of `validate_audio` (src/app.py lines 33-50).
`decode` stands for `sf.read(io.BytesIO(audio_file.getvalue()))`; the
Python `except Exception` branch is the `Except.error` case.  Returns the
`(bool, message)` pair the Python function returns. -/
def validate_audio (decode : List Nat → Except String AudioData)
    (bytes : List Nat) : Bool × String :=
  match decode bytes with
  | Except.error e => (false, "Invalid audio file: " ++ e)
  | Except.ok d =>
    if d.data.length = 0 then
      (false, "Audio file appears to be empty")
    else if (d.data.length : ℚ) / (d.samplerate : ℚ) < 1 / 10 then
      (false, "Audio file is too short")
    else
      (true, "Audio file is valid")

/-- The spec's `ValidationResult`: `Valid` or `Invalid(reason)`. -/
inductive ValidationResult where
  | valid : ValidationResult
  | invalid (reason : String) : ValidationResult
deriving DecidableEq

/-- Modelled from the spec's words (§4.2): decode the bytes; on a decoding
error return `Invalid("Invalid audio file: <underlying message>")`; if the
decoded sample count is zero return
`Invalid("Audio file appears to be empty")`; if duration
(sample count / sample rate) is below 0.1 seconds return
`Invalid("Audio file is too short")`; otherwise `Valid`.  Used only to be
compared with `validate_audio`, the embedding of the code. -/
def validateSpec (decode : List Nat → Except String AudioData)
    (bytes : List Nat) : ValidationResult :=
  match decode bytes with
  | Except.error e => ValidationResult.invalid ("Invalid audio file: " ++ e)
  | Except.ok d =>
    if d.data.length = 0 then
      ValidationResult.invalid "Audio file appears to be empty"
    else if (d.data.length : ℚ) / (d.samplerate : ℚ) < 1 / 10 then
      ValidationResult.invalid "Audio file is too short"
    else
      ValidationResult.valid

/-- Reads the code's `(bool, message)` pair as a spec-level verdict:
`True` is `Valid`, `False` carries its reason. -/
def toVerdict (p : Bool × String) : ValidationResult :=
  if p.1 then ValidationResult.valid else ValidationResult.invalid p.2

/-- C3: `validate_audio` implements exactly the spec's decision procedure:
a decoding error yields `Invalid("Invalid audio file: <message>")`, zero
samples yields `Invalid("Audio file appears to be empty")`, duration below
0.1 s yields `Invalid("Audio file is too short")`, and otherwise the
verdict is `Valid`. -/
theorem validate_audio_implements_spec
    (decode : List Nat → Except String AudioData) (bytes : List Nat) :
    toVerdict (validate_audio decode bytes) = validateSpec decode bytes := by
  unfold validate_audio validateSpec
  cases h : decode bytes with
  | error e => rfl
  | ok d =>
    dsimp only
    by_cases hlen : d.data.length = 0
    · rw [if_pos hlen, if_pos hlen]; rfl
    · rw [if_neg hlen, if_neg hlen]
      by_cases hdur : (d.data.length : ℚ) / (d.samplerate : ℚ) < 1 / 10
      · rw [if_pos hdur, if_pos hdur]; rfl
      · rw [if_neg hdur, if_neg hdur]; rfl

/-- C10: `validate_audio` is total: every input produces a plain
`(verdict, message)` pair — either the `Valid` verdict with its fixed
message or an `Invalid` verdict — and any exception raised by decoding is
caught and converted into
`Invalid("Invalid audio file: <underlying message>")` rather than
propagated. -/
theorem validate_audio_total
    (decode : List Nat → Except String AudioData) (bytes : List Nat) :
    (validate_audio decode bytes = (true, "Audio file is valid") ∨
      (validate_audio decode bytes).1 = false) ∧
    (∀ e, decode bytes = Except.error e →
      validate_audio decode bytes = (false, "Invalid audio file: " ++ e)) := by
  constructor
  · unfold validate_audio
    cases h : decode bytes with
    | error e => right; rfl
    | ok d =>
      dsimp only
      by_cases hlen : d.data.length = 0
      · right; rw [if_pos hlen]
      · by_cases hdur : (d.data.length : ℚ) / (d.samplerate : ℚ) < 1 / 10
        · right; rw [if_neg hlen, if_pos hdur]
        · left; rw [if_neg hlen, if_neg hdur]
  · intro e he
    unfold validate_audio
    rw [he]

/-- Witness for C10 at a concrete undecodable input. -/
theorem validate_audio_total_witness :
    (fun _ => Except.error "Format not recognised" :
        List Nat → Except String AudioData) [7] = Except.error "Format not recognised" ∧
    validate_audio (fun _ => Except.error "Format not recognised") [7] =
      (false, "Invalid audio file: Format not recognised") :=
  ⟨rfl, (validate_audio_total (fun _ => Except.error "Format not recognised") [7]).2
    "Format not recognised" rfl⟩

/-- An uploaded file as the pipeline sees it: original filename and raw
byte contents (`audio_file.name`, `audio_file.getvalue()`). -/
structure UploadedFile where
  name : String
  bytes : List Nat
deriving DecidableEq

/-- The extension part of `os.path.splitext(name)[1]` for ordinary
filenames: the final `"." ++ suffix` when the name contains a dot, `""`
otherwise. -/
def splitext_ext (name : String) : String :=
  match name.splitOn "." with
  | [] => ""
  | [_] => ""
  | parts => "." ++ parts.getLastD ""

/-- The filesystem state the pipeline manipulates: the set of existing
directories and the existing files with their byte contents. -/
structure FS where
  dirs : List String
  files : List (String × List Nat)
deriving DecidableEq

/-- `tempfile.mkdtemp()`: the fresh directory name is chosen by the
caller (mkdtemp guarantees it does not already exist). -/
def FS.mkdtemp (fs : FS) (d : String) : FS :=
  { fs with dirs := d :: fs.dirs }

/-- `open(path, 'wb'); f.write(bytes)`: creates or overwrites the file at
`path` with exactly `bytes`. -/
def FS.write (fs : FS) (path : String) (bytes : List Nat) : FS :=
  { fs with files := (path, bytes) :: fs.files.filter (fun p => p.1 != path) }

/-- `temp_path.unlink()`. -/
def FS.unlink (fs : FS) (path : String) : FS :=
  { fs with files := fs.files.filter (fun p => p.1 != path) }

/-- `os.rmdir(d)`. -/
def FS.rmdir (fs : FS) (d : String) : FS :=
  { fs with dirs := fs.dirs.erase d }

/-- The `finally` block of `transcribe_audio` (src/app.py lines 84-91):
`if temp_path.exists(): temp_path.unlink()`, then `os.rmdir(temp_dir)`,
the whole sequence wrapped in `try: ... except Exception: pass`.
`unlinkOk` / `rmdirOk` say whether the respective OS call succeeds; a
failed `unlink` raises, so `rmdir` is then never attempted, and either
failure is swallowed. -/
def cleanup_temp (unlinkOk rmdirOk : Bool) (tempPath tempDir : String)
    (fs : FS) : FS :=
  if fs.files.any (fun p => p.1 == tempPath) then
    if unlinkOk then
      if rmdirOk then (fs.unlink tempPath).rmdir tempDir else fs.unlink tempPath
    else fs
  else
    if rmdirOk then fs.rmdir tempDir else fs

/-- The exceptions `transcribe_audio` can raise, tagged by raise site
following the spec's taxonomy: `validationError` is the
`raise ValueError(message)` at the validation gate (line 57);
`transcriptionError` is the wrapping
`raise Exception(f"Transcription failed: {str(e)}")` (line 82). -/
inductive PipeError where
  | validationError (msg : String) : PipeError
  | transcriptionError (msg : String) : PipeError
deriving DecidableEq

/-- `str(e)` on an escaped exception — the failure reason the batch loop
reports to the user. -/
def PipeError.message : PipeError → String
  | PipeError.validationError msg => msg
  | PipeError.transcriptionError msg => msg

/-- The `try` block's outcome handling (src/app.py lines 68-82) as a
function of what `model.transcribe` did: an exception `e` raised during
inference, and the `raise ValueError("No transcription produced")` on an
empty or missing `"text"`, are both caught by `except Exception as e` and
re-raised as `Exception(f"Transcription failed: {str(e)}")`; a non-empty
text is returned. -/
def try_block_result (x : Except String (Option String)) :
    Except PipeError String :=
  match x with
  | Except.error e =>
    Except.error (PipeError.transcriptionError ("Transcription failed: " ++ e))
  | Except.ok none =>
    Except.error
      (PipeError.transcriptionError "Transcription failed: No transcription produced")
  | Except.ok (some t) =>
    if t = "" then
      Except.error
        (PipeError.transcriptionError "Transcription failed: No transcription produced")
    else
      Except.ok t

/-- Shallow embedding of `transcribe_audio` (src/app.py lines 52-91).
`decode` is the audio decoder used by validation; `tr` is
`model.transcribe`, receiving the byte contents found at the temporary
path, the `fp16` flag and the `language` hint; `tempDir` is the fresh
directory `tempfile.mkdtemp()` returns; `unlinkOk` / `rmdirOk` model the
cleanup OS calls.  Returns the Python result (returned text or escaped
exception) together with the final filesystem. -/
def transcribe_audio (decode : List Nat → Except String AudioData)
    (tr : List Nat → Bool → String → Except String (Option String))
    (unlinkOk rmdirOk : Bool) (tempDir : String)
    (f : UploadedFile) (fs : FS) : Except PipeError String × FS :=
  let v := validate_audio decode f.bytes
  if v.1 = false then
    (Except.error (PipeError.validationError v.2), fs)
  else
    let tempPath := tempDir ++ "/audio" ++ splitext_ext f.name
    let fs1 := (fs.mkdtemp tempDir).write tempPath f.bytes
    let contents := (fs1.files.lookup tempPath).getD []
    let result := try_block_result (tr contents false "en")
    (result, cleanup_temp unlinkOk rmdirOk tempPath tempDir fs1)

/-- Filtering out a key that does not occur leaves the file list
unchanged. -/
theorem filter_ne_of_not_mem (p : String) (l : List (String × List Nat))
    (h : p ∉ l.map Prod.fst) : l.filter (fun q => q.1 != p) = l := by
  induction l with
  | nil => rfl
  | cons a t ih =>
    have h1 : a.1 ≠ p := fun hc => h (by simp [← hc])
    have h2 : p ∉ t.map Prod.fst := fun hc => h (by simp [hc])
    simp [List.filter_cons, bne_iff_ne, h1, ih h2]

/-- After `mkdtemp` and the write, the temporary path holds exactly the
written bytes. -/
theorem lookup_after_write (fs : FS) (d p : String) (b : List Nat) :
    ((fs.mkdtemp d).write p b).files.lookup p = some b := by
  simp [FS.mkdtemp, FS.write, List.lookup]

/-- When the temporary directory and path are fresh and both OS deletions
succeed, the cleanup of the just-created temporary state restores the
original filesystem exactly. -/
theorem cleanup_temp_fresh (tempPath tempDir : String) (b : List Nat) (fs : FS)
    (hfile : tempPath ∉ fs.files.map Prod.fst) :
    cleanup_temp true true tempPath tempDir ((fs.mkdtemp tempDir).write tempPath b) = fs := by
  have hfil : fs.files.filter (fun q => q.1 != tempPath) = fs.files :=
    filter_ne_of_not_mem tempPath fs.files hfile
  unfold cleanup_temp FS.mkdtemp FS.write FS.unlink FS.rmdir
  simp [List.any_cons, List.filter_cons, hfil, List.erase_cons_head]

/-- On valid input, the pipeline's returned outcome is the `try` block's
handling of `model.transcribe` invoked on exactly the uploaded bytes with
`fp16 = False` and `language = "en"`. -/
theorem transcribe_audio_result_eq (decode : List Nat → Except String AudioData)
    (tr : List Nat → Bool → String → Except String (Option String))
    (u r : Bool) (tempDir : String) (f : UploadedFile) (fs : FS)
    (hval : (validate_audio decode f.bytes).1 = true) :
    (transcribe_audio decode tr u r tempDir f fs).1 =
      try_block_result (tr f.bytes false "en") := by
  have hv : ¬((validate_audio decode f.bytes).1 = false) := by simp [hval]
  simp only [transcribe_audio, if_neg hv, lookup_after_write, Option.getD_some]

/-- A concrete decoder used by witnesses: every buffer decodes to one
sample per byte at 1 Hz, so any buffer with at least one byte passes
validation. -/
def decodeFix : List Nat → Except String AudioData :=
  fun b => Except.ok ⟨List.replicate b.length 0, 1, Nat.one_pos⟩

/-- C1: once validation has passed (so the temporary file is created), the
pipeline leaves no temporary file or directory behind on any exit path —
success, empty transcription, or model failure (`tr` is universally
quantified) — provided the OS deletions succeed; and the outcome the
caller sees never depends on whether the deletions succeed (cleanup
failures are swallowed). -/
theorem transcribe_audio_cleanup (decode : List Nat → Except String AudioData)
    (tr : List Nat → Bool → String → Except String (Option String))
    (tempDir : String) (f : UploadedFile) (fs : FS)
    (hval : (validate_audio decode f.bytes).1 = true)
    (hdir : tempDir ∉ fs.dirs)
    (hfile : tempDir ++ "/audio" ++ splitext_ext f.name ∉ fs.files.map Prod.fst) :
    (transcribe_audio decode tr true true tempDir f fs).2 = fs ∧
    ∀ u r, (transcribe_audio decode tr u r tempDir f fs).1 =
      (transcribe_audio decode tr true true tempDir f fs).1 := by
  have hv : ¬((validate_audio decode f.bytes).1 = false) := by simp [hval]
  constructor
  · simp only [transcribe_audio, if_neg hv]
    exact cleanup_temp_fresh _ tempDir f.bytes fs hfile
  · intro u r
    simp only [transcribe_audio, if_neg hv]

/-- Witness for C1: a one-second decodable upload into an empty
filesystem. -/
theorem transcribe_audio_cleanup_witness :
    (validate_audio decodeFix [1, 2, 3]).1 = true ∧
    "/tmp/t0" ∉ (⟨[], []⟩ : FS).dirs ∧
    "/tmp/t0" ++ "/audio" ++ splitext_ext "a.mp3" ∉
      ((⟨[], []⟩ : FS).files.map Prod.fst) ∧
    ((transcribe_audio decodeFix (fun _ _ _ => Except.ok (some "hello")) true true
        "/tmp/t0" ⟨"a.mp3", [1, 2, 3]⟩ ⟨[], []⟩).2 = (⟨[], []⟩ : FS) ∧
      ∀ u r, (transcribe_audio decodeFix (fun _ _ _ => Except.ok (some "hello")) u r
          "/tmp/t0" ⟨"a.mp3", [1, 2, 3]⟩ ⟨[], []⟩).1 =
        (transcribe_audio decodeFix (fun _ _ _ => Except.ok (some "hello")) true true
          "/tmp/t0" ⟨"a.mp3", [1, 2, 3]⟩ ⟨[], []⟩).1) :=
  ⟨by norm_num [validate_audio, decodeFix], by decide, by decide,
    transcribe_audio_cleanup decodeFix (fun _ _ _ => Except.ok (some "hello"))
      "/tmp/t0" ⟨"a.mp3", [1, 2, 3]⟩ ⟨[], []⟩
      (by norm_num [validate_audio, decodeFix]) (by decide) (by decide)⟩

/-- C4: when validation rejects the upload, `transcribe_audio` fails
immediately with a `ValidationError` carrying the validator's reason, and
the filesystem is untouched — no temporary file or directory is
created. -/
theorem transcribe_audio_rejected (decode : List Nat → Except String AudioData)
    (tr : List Nat → Bool → String → Except String (Option String))
    (u r : Bool) (tempDir : String) (f : UploadedFile) (fs : FS)
    (hval : (validate_audio decode f.bytes).1 = false) :
    transcribe_audio decode tr u r tempDir f fs =
      (Except.error (PipeError.validationError (validate_audio decode f.bytes).2), fs) := by
  simp only [transcribe_audio, if_pos hval]

/-- Witness for C4: an undecodable upload is rejected with the
validator's reason and leaves the filesystem unchanged. -/
theorem transcribe_audio_rejected_witness :
    (validate_audio (fun _ => Except.error "bad header") [9]).1 = false ∧
    transcribe_audio (fun _ => Except.error "bad header")
        (fun _ _ _ => Except.ok (some "hello")) true true "/tmp/t1"
        ⟨"b.wav", [9]⟩ ⟨["/keep"], [("/keep/f", [1])]⟩ =
      (Except.error (PipeError.validationError "Invalid audio file: bad header"),
        ⟨["/keep"], [("/keep/f", [1])]⟩) :=
  ⟨rfl,
    transcribe_audio_rejected (fun _ => Except.error "bad header")
      (fun _ _ _ => Except.ok (some "hello")) true true "/tmp/t1"
      ⟨"b.wav", [9]⟩ ⟨["/keep"], [("/keep/f", [1])]⟩ rfl⟩

/-- Case analysis on the `try` block's outcome: it either returns a
non-empty text or fails with a `TranscriptionError`. -/
theorem try_block_result_cases (x : Except String (Option String)) :
    (∃ t, try_block_result x = Except.ok t ∧ t ≠ "") ∨
    (∃ m, try_block_result x = Except.error (PipeError.transcriptionError m)) := by
  match x with
  | Except.error e => exact Or.inr ⟨_, rfl⟩
  | Except.ok none => exact Or.inr ⟨_, rfl⟩
  | Except.ok (some t) =>
    unfold try_block_result
    dsimp only
    by_cases ht : t = ""
    · exact Or.inr ⟨_, by rw [if_pos ht]⟩
    · exact Or.inl ⟨t, by rw [if_neg ht], ht⟩

/-- C2: on any upload the validator accepts, `transcribe_audio` either
returns a non-empty text or fails with a `TranscriptionError`
(the wrapping raise at line 82); it never fails with a
`ValidationError`. -/
theorem transcribe_audio_accepted_outcome
    (decode : List Nat → Except String AudioData)
    (tr : List Nat → Bool → String → Except String (Option String))
    (u r : Bool) (tempDir : String) (f : UploadedFile) (fs : FS)
    (hval : (validate_audio decode f.bytes).1 = true) :
    (∃ t, (transcribe_audio decode tr u r tempDir f fs).1 = Except.ok t ∧ t ≠ "") ∨
    (∃ m, (transcribe_audio decode tr u r tempDir f fs).1 =
      Except.error (PipeError.transcriptionError m)) := by
  rw [transcribe_audio_result_eq decode tr u r tempDir f fs hval]
  exact try_block_result_cases (tr f.bytes false "en")

/-- Witness for C2: a valid upload whose model inference raises is
reported as a `TranscriptionError`. -/
theorem transcribe_audio_accepted_outcome_witness :
    (validate_audio decodeFix [1, 2]).1 = true ∧
    ((∃ t, (transcribe_audio decodeFix (fun _ _ _ => Except.error "cuda gone") true true
        "/tmp/t3" ⟨"d.flac", [1, 2]⟩ ⟨[], []⟩).1 = Except.ok t ∧ t ≠ "") ∨
      (∃ m, (transcribe_audio decodeFix (fun _ _ _ => Except.error "cuda gone") true true
          "/tmp/t3" ⟨"d.flac", [1, 2]⟩ ⟨[], []⟩).1 =
        Except.error (PipeError.transcriptionError m))) :=
  ⟨by norm_num [validate_audio, decodeFix],
    transcribe_audio_accepted_outcome decodeFix (fun _ _ _ => Except.error "cuda gone")
      true true "/tmp/t3" ⟨"d.flac", [1, 2]⟩ ⟨[], []⟩
      (by norm_num [validate_audio, decodeFix])⟩

/-- C9: on any upload the validator accepts, the uploaded bytes are
written to the fresh temporary location byte-for-byte (the location then
holds exactly `f.bytes`), and the pipeline's outcome is the `try` block's
handling of `model.transcribe` applied to exactly those bytes with
`fp16 = False` and `language = "en"`. -/
theorem transcribe_audio_write_and_invoke
    (decode : List Nat → Except String AudioData)
    (tr : List Nat → Bool → String → Except String (Option String))
    (u r : Bool) (tempDir : String) (f : UploadedFile) (fs : FS)
    (hval : (validate_audio decode f.bytes).1 = true) :
    (∀ (fs2 : FS) (d p : String),
      ((fs2.mkdtemp d).write p f.bytes).files.lookup p = some f.bytes) ∧
    (transcribe_audio decode tr u r tempDir f fs).1 =
      try_block_result (tr f.bytes false "en") := by
  constructor
  · intro fs2 d p
    exact lookup_after_write fs2 d p f.bytes
  · exact transcribe_audio_result_eq decode tr u r tempDir f fs hval

/-- Witness for C9 at a concrete valid upload. -/
theorem transcribe_audio_write_and_invoke_witness :
    (validate_audio decodeFix [3, 1, 4]).1 = true ∧
    ((∀ (fs2 : FS) (d p : String),
        ((fs2.mkdtemp d).write p [3, 1, 4]).files.lookup p = some [3, 1, 4]) ∧
      (transcribe_audio decodeFix (fun _ _ _ => Except.ok (some "pi")) false true
          "/tmp/t4" ⟨"e.m4a", [3, 1, 4]⟩ ⟨[], []⟩).1 =
        try_block_result ((fun _ _ _ => Except.ok (some "pi")) ([3, 1, 4] : List Nat)
          false "en")) :=
  ⟨by norm_num [validate_audio, decodeFix],
    transcribe_audio_write_and_invoke decodeFix (fun _ _ _ => Except.ok (some "pi"))
      false true "/tmp/t4" ⟨"e.m4a", [3, 1, 4]⟩ ⟨[], []⟩
      (by norm_num [validate_audio, decodeFix])⟩

/-- C7 counterexample: at a concrete valid upload whose model result has
an empty text, the pipeline fails — but the exception, and hence the
failure reason the batch loop reports verbatim via `str(e)`, is
`"Transcription failed: No transcription produced"`, not exactly
`"No transcription produced"`: the inner `ValueError` is caught at line 81
and re-wrapped with the `"Transcription failed: "` prefix. -/
theorem no_transcription_reported_counterexample :
    (transcribe_audio decodeFix (fun _ _ _ => Except.ok (some "")) true true
        "/tmp/t5" ⟨"f.mp3", [4, 5]⟩ ⟨[], []⟩).1 =
      Except.error
        (PipeError.transcriptionError "Transcription failed: No transcription produced") ∧
    PipeError.message
        (PipeError.transcriptionError "Transcription failed: No transcription produced") ≠
      "No transcription produced" := by
  constructor
  · rw [transcribe_audio_result_eq decodeFix (fun _ _ _ => Except.ok (some ""))
      true true "/tmp/t5" ⟨"f.mp3", [4, 5]⟩ ⟨[], []⟩
      (by norm_num [validate_audio, decodeFix])]
    rfl
  · decide

/-- C7 as amended: whenever the model yields no text (missing or empty
result), `transcribe_audio` fails with a `TranscriptionError` whose
reason, as reported to the user via `str(e)`, is exactly
`"Transcription failed: No transcription produced"`. -/
theorem no_transcription_reported (decode : List Nat → Except String AudioData)
    (tr : List Nat → Bool → String → Except String (Option String))
    (u r : Bool) (tempDir : String) (f : UploadedFile) (fs : FS)
    (hval : (validate_audio decode f.bytes).1 = true)
    (hempty : tr f.bytes false "en" = Except.ok none ∨
      tr f.bytes false "en" = Except.ok (some "")) :
    (transcribe_audio decode tr u r tempDir f fs).1 =
      Except.error
        (PipeError.transcriptionError "Transcription failed: No transcription produced") := by
  rw [transcribe_audio_result_eq decode tr u r tempDir f fs hval]
  rcases hempty with h | h <;> rw [h] <;> rfl

/-- Witness for the amended C7 at a concrete upload whose model result is
missing its text. -/
theorem no_transcription_reported_witness :
    (validate_audio decodeFix [6]).1 = true ∧
    ((fun _ _ _ => Except.ok none : List Nat → Bool → String →
        Except String (Option String)) [6] false "en" = Except.ok none ∨
      (fun _ _ _ => Except.ok none : List Nat → Bool → String →
        Except String (Option String)) [6] false "en" = Except.ok (some "")) ∧
    (transcribe_audio decodeFix (fun _ _ _ => Except.ok none) true true
        "/tmp/t6" ⟨"g.wav", [6]⟩ ⟨[], []⟩).1 =
      Except.error
        (PipeError.transcriptionError "Transcription failed: No transcription produced") :=
  ⟨by norm_num [validate_audio, decodeFix], Or.inl rfl,
    no_transcription_reported decodeFix (fun _ _ _ => Except.ok none) true true
      "/tmp/t6" ⟨"g.wav", [6]⟩ ⟨[], []⟩
      (by norm_num [validate_audio, decodeFix]) (Or.inl rfl)⟩

/-- The state the batch loop (src/app.py lines 108-131) threads through
its iteration: `st.session_state.transcriptions` (filename to text, in
insertion order, as a Python dict preserves it) and the `skipped_files`
list of `(filename, error message)` pairs. -/
structure BatchState where
  transcriptions : List (String × String)
  skipped : List (String × String)
deriving DecidableEq

/-- One iteration of the batch loop (src/app.py lines 111-126): skip the
file if its name is already transcribed; otherwise run the transcription
(`tr`, standing for `transcribe_audio` on this upload), storing the text
on success and recording `(filename, str(e))` in `skipped_files` on
failure. -/
def process_one (tr : UploadedFile → Except PipeError String)
    (st : BatchState) (f : UploadedFile) : BatchState :=
  if (st.transcriptions.map Prod.fst).contains f.name then st
  else
    match tr f with
    | Except.ok text =>
      { st with transcriptions := st.transcriptions ++ [(f.name, text)] }
    | Except.error e =>
      { st with skipped := st.skipped ++ [(f.name, e.message)] }

/-- The whole batch loop: left fold of `process_one` over the uploaded
files in order. -/
def transcribe_all (tr : UploadedFile → Except PipeError String)
    (files : List UploadedFile) (st : BatchState) : BatchState :=
  files.foldl (process_one tr) st

/-- The session store's insert as the batch loop performs it (src/app.py
lines 112 and 120): insert only when the filename is absent. -/
def session_put (store : List (String × String)) (name text : String) :
    List (String × String) :=
  if (store.map Prod.fst).contains name then store else store ++ [(name, text)]

/-- Python's `"\n\n".join`: empty for no parts, the single part alone, and
otherwise the parts separated by blank lines. -/
def join_blank : List String → String
  | [] => ""
  | [a] => a
  | a :: b :: rest => a ++ "\n\n" ++ join_blank (b :: rest)

/-- The combined export (src/app.py lines 138-141):
`"\n\n".join(f"=== {filename} ===\n{text}" for ...)` over the store in
insertion order. -/
def all_transcriptions (store : List (String × String)) : String :=
  join_blank (store.map (fun p => "=== " ++ p.1 ++ " ===\n" ++ p.2))

/-- Modelled from the spec's words (§4.4, `export_combined`): concatenate
all entries as `"=== {filename} ===\n{text}"` joined by blank lines, in
insertion order.  Used only to be compared with `all_transcriptions`, the
embedding of the code. -/
def exportSpec : List (String × String) → String
  | [] => ""
  | [(f, t)] => "=== " ++ f ++ " ===\n" ++ t
  | (f, t) :: rest => "=== " ++ f ++ " ===\n" ++ t ++ "\n\n" ++ exportSpec rest

/-- C5: batch processing is failure-isolated.  Processing a concatenation
is processing the first part and then the second from the resulting state
(so nothing a file does — including failing — stops the files after it);
a failing fresh file contributes exactly its `(filename, str(e))` pair to
the skipped list and nothing to the store; a succeeding fresh file
contributes exactly its record to the store and nothing to the skipped
list. -/
theorem transcribe_all_failure_isolated
    (tr : UploadedFile → Except PipeError String) :
    (∀ (xs ys : List UploadedFile) (st : BatchState),
      transcribe_all tr (xs ++ ys) st = transcribe_all tr ys (transcribe_all tr xs st)) ∧
    (∀ (f : UploadedFile) (e : PipeError) (rest : List UploadedFile) (st : BatchState),
      tr f = Except.error e →
      (st.transcriptions.map Prod.fst).contains f.name = false →
      transcribe_all tr (f :: rest) st =
        transcribe_all tr rest
          { st with skipped := st.skipped ++ [(f.name, e.message)] }) ∧
    (∀ (f : UploadedFile) (text : String) (rest : List UploadedFile) (st : BatchState),
      tr f = Except.ok text →
      (st.transcriptions.map Prod.fst).contains f.name = false →
      transcribe_all tr (f :: rest) st =
        transcribe_all tr rest
          { st with transcriptions := st.transcriptions ++ [(f.name, text)] }) := by
  refine ⟨fun xs ys st => ?_, fun f e rest st hf hnew => ?_, fun f text rest st hf hnew => ?_⟩
  · unfold transcribe_all
    exact List.foldl_append _ _ _ _
  · unfold transcribe_all
    rw [List.foldl_cons]
    unfold process_one
    rw [hnew, hf]
    rfl
  · unfold transcribe_all
    rw [List.foldl_cons]
    unfold process_one
    rw [hnew, hf]
    rfl

/-- Witness for C5: the spec's `[ok1, invalid1, ok2]` batch, stepped with
the failure clause — `invalid1` fails, is recorded, and `ok2` is still
processed. -/
theorem transcribe_all_failure_isolated_witness :
    (fun f => if f.name = "invalid1.mp3" then
        Except.error (PipeError.validationError "Audio file is too short")
      else Except.ok ("text of " ++ f.name) :
        UploadedFile → Except PipeError String) ⟨"invalid1.mp3", [2]⟩ =
      Except.error (PipeError.validationError "Audio file is too short") ∧
    (((⟨[("ok1.mp3", "text of ok1.mp3")], []⟩ :
      BatchState).transcriptions.map Prod.fst).contains "invalid1.mp3" = false) ∧
    transcribe_all
        (fun f => if f.name = "invalid1.mp3" then
          Except.error (PipeError.validationError "Audio file is too short")
        else Except.ok ("text of " ++ f.name))
        [⟨"invalid1.mp3", [2]⟩, ⟨"ok2.mp3", [3]⟩]
        ⟨[("ok1.mp3", "text of ok1.mp3")], []⟩ =
      transcribe_all
        (fun f => if f.name = "invalid1.mp3" then
          Except.error (PipeError.validationError "Audio file is too short")
        else Except.ok ("text of " ++ f.name))
        [⟨"ok2.mp3", [3]⟩]
        ⟨[("ok1.mp3", "text of ok1.mp3")],
          [("invalid1.mp3", "Audio file is too short")]⟩ :=
  ⟨rfl, by decide,
    (transcribe_all_failure_isolated
      (fun f => if f.name = "invalid1.mp3" then
        Except.error (PipeError.validationError "Audio file is too short")
      else Except.ok ("text of " ++ f.name))).2.1
      ⟨"invalid1.mp3", [2]⟩ (PipeError.validationError "Audio file is too short")
      [⟨"ok2.mp3", [3]⟩] ⟨[("ok1.mp3", "text of ok1.mp3")], []⟩
      rfl (by decide)⟩

/-- C6: the session store's insert is idempotent on duplicate filenames —
a second `put` under the same name is a no-op, the stored value stays the
first one (`put "a.mp3" "x"` then `put "a.mp3" "y"` leaves `"x"`), and the
batch loop does not touch its state at all for a filename that is already
transcribed. -/
theorem session_put_idempotent :
    (∀ (store : List (String × String)) (n x y : String),
      session_put (session_put store n x) n y = session_put store n x) ∧
    (session_put (session_put [] "a.mp3" "x") "a.mp3" "y").lookup "a.mp3" = some "x" ∧
    (∀ (tr : UploadedFile → Except PipeError String) (st : BatchState)
      (f : UploadedFile),
      (st.transcriptions.map Prod.fst).contains f.name = true →
      process_one tr st f = st) := by
  refine ⟨fun store n x y => ?_, by decide, fun tr st f h => ?_⟩
  · by_cases h : (store.map Prod.fst).contains n
    · have h1 : session_put store n x = store := by rw [session_put, if_pos h]
      rw [h1, session_put, if_pos h]
    · have h1 : session_put store n x = store ++ [(n, x)] := by
        rw [session_put, if_neg h]
      have h2 : ((store ++ [(n, x)]).map Prod.fst).contains n = true := by
        apply List.elem_eq_true_of_mem
        simp
      rw [h1, session_put, if_pos h2]
  · unfold process_one
    rw [h]
    rfl

/-- Witness for C6: the batch loop skips a duplicate filename without
changing its state. -/
theorem session_put_idempotent_witness :
    (((⟨[("a.mp3", "x")], []⟩ : BatchState).transcriptions.map Prod.fst).contains
      "a.mp3" = true) ∧
    process_one (fun _ => Except.ok "y") ⟨[("a.mp3", "x")], []⟩ ⟨"a.mp3", [8]⟩ =
      ⟨[("a.mp3", "x")], []⟩ :=
  ⟨by decide,
    session_put_idempotent.2.2 (fun _ => Except.ok "y")
      ⟨[("a.mp3", "x")], []⟩ ⟨"a.mp3", [8]⟩ (by decide)⟩

/-- The code's join-of-rendered-entries equals the spec's recursive
"entries joined by blank lines" rendering, entry by entry in order. -/
theorem all_transcriptions_eq_exportSpec :
    ∀ s, all_transcriptions s = exportSpec s
  | [] => rfl
  | [(_, _)] => rfl
  | (f, t) :: (g, u) :: rest => by
    have ih := all_transcriptions_eq_exportSpec ((g, u) :: rest)
    show ("=== " ++ f ++ " ===\n" ++ t) ++ "\n\n" ++
        all_transcriptions ((g, u) :: rest) =
      ("=== " ++ f ++ " ===\n" ++ t) ++ "\n\n" ++ exportSpec ((g, u) :: rest)
    rw [ih]

/-- C8: the combined export is the entries rendered as
`"=== {filename} ===\n{text}"` joined by blank lines in insertion order;
in particular, after inserting `("a.mp3", "hello")` then
`("b.wav", "world")` into an empty store it is exactly
`"=== a.mp3 ===\nhello\n\n=== b.wav ===\nworld"`. -/
theorem all_transcriptions_format :
    (∀ s, all_transcriptions s = exportSpec s) ∧
    all_transcriptions (session_put (session_put [] "a.mp3" "hello") "b.wav" "world") =
      "=== a.mp3 ===\nhello\n\n=== b.wav ===\nworld" :=
  ⟨all_transcriptions_eq_exportSpec, by decide⟩
